import Mathlib

/-!
Verification of the graphics-context lifecycle and presentation subsystem of
`src/src/yuzu_cmd/emu_window/emu_window_sdl2_gl.cpp` (yuzu SDL2 OpenGL frontend).

The C++ code is shallowly embedded: each operation is a pure Lean function
producing an updated state and/or a trace of the SDL / logging calls it makes,
in program order.  Window and context handles are modelled as natural-number
identifiers handed out by a counter, matching the allocation order in the code.
-/

namespace Yuzu

/-- Trace events: one constructor per externally observable call the embedded
code performs (SDL API calls, the GLAD loader, logging, process exit). -/
inductive Ev where
  | setAttr (attr : String) (value : Int)
  | setSwapInterval (value : Int)
  | createWindow (id : Nat) (title : Option String) (w h : Int) (hidden : Bool)
  | glCreateContext (ctxId : Nat) (windowId : Nat) (ok : Bool)
  | glDeleteContext (ctxId : Nat)
  | destroyWindow (id : Nat)
  | glMakeCurrent (windowId : Nat) (ctx : Option Nat)
  | gladLoad (ok : Bool)
  | fullscreenCall
  | onResize
  | onMinimalClientAreaChange
  | pumpEvents
  | logCritical (msg : String)
  | logInfo (msg : String)
  | logSettings
  | tryPresent (timeoutMs : Nat) (gotFrame : Bool)
  | swapWindow (windowId : Nat)
  | exitProcess (code : Int)
  deriving DecidableEq, Repr

/-- `true` on log-error events (`LOG_CRITICAL`); the context-binding operations
of `SDLGLContext` must never emit one. -/
def Ev.isCritical : Ev → Bool
  | .logCritical _ => true
  | _ => false

/-- `true` on process-exit events. -/
def Ev.isExit : Ev → Bool
  | .exitProcess _ => true
  | _ => false

/-- `true` on `SDL_GL_SetSwapInterval` events (the vsync policy being applied
to the window). -/
def Ev.isSetSwapInterval : Ev → Bool
  | .setSwapInterval _ => true
  | _ => false

/-- `true` on `TryPresent` calls to the renderer. -/
def Ev.isTryPresent : Ev → Bool
  | .tryPresent _ _ => true
  | _ => false

/-- `true` on `SDL_GL_SwapWindow` events. -/
def Ev.isSwapWindow : Ev → Bool
  | .swapWindow _ => true
  | _ => false

/-! ## SDLGLContext: binding state machine

```cpp
void MakeCurrent() override {
    if (is_current) { return; }
    is_current = SDL_GL_MakeCurrent(window, context) == 0;
}
void DoneCurrent() override {
    if (!is_current) { return; }
    SDL_GL_MakeCurrent(window, nullptr);
    is_current = false;
}
```
The binding state is the single boolean `is_current`.  The result of the
underlying `SDL_GL_MakeCurrent(window, context)` call is an environment input
(`bindOk`): `0` (success) becomes `true`.  Window/context ids are irrelevant to
the state machine, so the trace events here use fixed id `0`. -/

/-- `SDLGLContext::MakeCurrent`: returns the new `is_current` together with the
SDL calls made. -/
def makeCurrent (bindOk : Bool) (is_current : Bool) : Bool × List Ev :=
  if is_current then (is_current, [])
  else (bindOk, [Ev.glMakeCurrent 0 (some 0)])

/-- `SDLGLContext::DoneCurrent`: returns the new `is_current` together with the
SDL calls made (the unbind call's result is ignored by the code). -/
def doneCurrent (is_current : Bool) : Bool × List Ev :=
  if !is_current then (is_current, [])
  else (false, [Ev.glMakeCurrent 0 none])

/-- A call in a single-thread call sequence on one `SDLGLContext`; a
`make` call carries the success of its underlying SDL bind attempt. -/
inductive GLOp where
  | make (bindOk : Bool)
  | done
  deriving DecidableEq, Repr

/-- Run a sequence of `MakeCurrent`/`DoneCurrent` calls from state `s`,
collecting the trace. -/
def runOps : List GLOp → Bool → Bool × List Ev
  | [], s => (s, [])
  | GLOp.make bindOk :: ops, s =>
      let (s', t) := makeCurrent bindOk s
      let (s'', t') := runOps ops s'
      (s'', t ++ t')
  | GLOp.done :: ops, s =>
      let (s', t) := doneCurrent s
      let (s'', t') := runOps ops s'
      (s'', t ++ t')

/-- The spec's two-state machine: `MakeCurrent` goes to (or stays) current,
`DoneCurrent` goes to (or stays) not-current. -/
def specStep (_s : Bool) : GLOp → Bool
  | GLOp.make _ => true
  | GLOp.done => false

/-- Every `make` call in the sequence has a successful underlying bind. -/
def allBindsSucceed : List GLOp → Bool
  | [] => true
  | GLOp.make bindOk :: ops => bindOk && allBindsSucceed ops
  | GLOp.done :: ops => allBindsSucceed ops

/-- An event that signals no error: neither a critical log nor a process
exit. -/
def noErrorEv (e : Ev) : Bool := !(e.isCritical || e.isExit)

/-- A trace that signals no error at all. -/
def cleanTrace (t : List Ev) : Bool := t.all noErrorEv

/-! ## EmuWindow_SDL2_GL::SupportsRequiredGLExtensions

The driver state is the tuple of the nine GLAD extension flags the function
reads.  The function pushes the name of each missing extension onto
`unsupported_ext`, logs one `LOG_CRITICAL` line per collected name, and
returns whether the collection is empty. -/

/-- The GLAD extension flags queried by `SupportsRequiredGLExtensions`. -/
structure GLDriver where
  ARB_buffer_storage : Bool
  ARB_direct_state_access : Bool
  ARB_vertex_type_10f_11f_11f_rev : Bool
  ARB_texture_mirror_clamp_to_edge : Bool
  ARB_multi_bind : Bool
  ARB_clip_control : Bool
  EXT_texture_compression_s3tc : Bool
  ARB_texture_compression_rgtc : Bool
  ARB_depth_buffer_float : Bool
  deriving DecidableEq, Repr

/-- The `unsupported_ext` vector built by `SupportsRequiredGLExtensions`, in
the code's push order. -/
def unsupported_ext (d : GLDriver) : List String :=
  (if !d.ARB_buffer_storage then ["ARB_buffer_storage"] else []) ++
  (if !d.ARB_direct_state_access then ["ARB_direct_state_access"] else []) ++
  (if !d.ARB_vertex_type_10f_11f_11f_rev then ["ARB_vertex_type_10f_11f_11f_rev"] else []) ++
  (if !d.ARB_texture_mirror_clamp_to_edge then ["ARB_texture_mirror_clamp_to_edge"] else []) ++
  (if !d.ARB_multi_bind then ["ARB_multi_bind"] else []) ++
  (if !d.ARB_clip_control then ["ARB_clip_control"] else []) ++
  (if !d.EXT_texture_compression_s3tc then ["EXT_texture_compression_s3tc"] else []) ++
  (if !d.ARB_texture_compression_rgtc then ["ARB_texture_compression_rgtc"] else []) ++
  (if !d.ARB_depth_buffer_float then ["ARB_depth_buffer_float"] else [])

/-- `SupportsRequiredGLExtensions`: the critical diagnostics it logs (one per
collected name, in order) and its boolean return (`unsupported_ext.empty()`). -/
def supportsRequiredGLExtensions (d : GLDriver) : List Ev × Bool :=
  ((unsupported_ext d).map (fun e => Ev.logCritical ("Unsupported GL extension: " ++ e)),
   (unsupported_ext d).isEmpty)

/-- Modelled from the spec (not the code): the fixed required-capability list,
and which of its members a driver is missing.  Used only to compare the code's
collection against the spec's description of it. -/
def specRequiredList (d : GLDriver) : List (String × Bool) :=
  [("ARB_buffer_storage", d.ARB_buffer_storage),
   ("ARB_direct_state_access", d.ARB_direct_state_access),
   ("ARB_vertex_type_10f_11f_11f_rev", d.ARB_vertex_type_10f_11f_11f_rev),
   ("ARB_texture_mirror_clamp_to_edge", d.ARB_texture_mirror_clamp_to_edge),
   ("ARB_multi_bind", d.ARB_multi_bind),
   ("ARB_clip_control", d.ARB_clip_control),
   ("EXT_texture_compression_s3tc", d.EXT_texture_compression_s3tc),
   ("ARB_texture_compression_rgtc", d.ARB_texture_compression_rgtc),
   ("ARB_depth_buffer_float", d.ARB_depth_buffer_float)]

/-- Modelled from the spec: the names of exactly the missing required
extensions. -/
def specMissing (d : GLDriver) : List String :=
  ((specRequiredList d).filter (fun p => !p.2)).map Prod.fst

/-- The number K of missing required extensions in driver state `d`. -/
def missingCount (d : GLDriver) : Nat := (specMissing d).length

/-! ## Window title

```cpp
std::string window_title = fmt::format("yuzu {} | {}-{}", Common::g_build_fullname,
                                       Common::g_scm_branch, Common::g_scm_desc);
``` -/

/-- The visible window's title, composed from the build-identity fields. -/
def windowTitle (build_fullname scm_branch scm_desc : String) : String :=
  "yuzu " ++ build_fullname ++ " | " ++ scm_branch ++ "-" ++ scm_desc

/-! ## SDL world model: windows, contexts, sharing

`SDL_GL_CreateContext` is modelled with SDL's documented semantics: the new
context is anchored to the window it is created against, becomes current on
the calling thread on success, and — exactly when the
`SDL_GL_SHARE_WITH_CURRENT_CONTEXT` attribute is set — shares its GPU object
namespace with whatever context was current on the calling thread at creation
time.  Handles are consecutive natural numbers. -/

/-- An SDL window as created by `SDL_CreateWindow`. -/
structure SDLWindowRec where
  id : Nat
  title : Option String
  width : Int
  height : Int
  hidden : Bool
  deriving DecidableEq, Repr

/-- A GL context as created by `SDL_GL_CreateContext`.  `sharedWith` is the
context that was current on the calling thread at creation time when the
share attribute was set; `valid` is false when the underlying creation call
returned null. -/
structure SDLContextRec where
  id : Nat
  anchorWindowId : Nat
  sharedWith : Option Nat
  valid : Bool
  deriving DecidableEq, Repr

/-- The ambient SDL state a creation call reads and updates. -/
structure SDLEnvState where
  shareWithCurrent : Bool
  currentCtx : Option Nat
  nextWindowId : Nat
  nextCtxId : Nat
  deriving DecidableEq, Repr

/-- `SDL_CreateWindow` model. -/
def sdlCreateWindow (st : SDLEnvState) (title : Option String) (w h : Int)
    (hidden : Bool) : SDLWindowRec × SDLEnvState :=
  ({ id := st.nextWindowId, title := title, width := w, height := h, hidden := hidden },
   { st with nextWindowId := st.nextWindowId + 1 })

/-- `SDL_GL_CreateContext` model; `ok` is the success of the underlying call
(the environment's choice). -/
def sdlGLCreateContext (st : SDLEnvState) (win : SDLWindowRec) (ok : Bool) :
    SDLContextRec × SDLEnvState :=
  ({ id := st.nextCtxId, anchorWindowId := win.id,
     sharedWith := if st.shareWithCurrent then st.currentCtx else none,
     valid := ok },
   { st with nextCtxId := st.nextCtxId + 1,
             currentCtx := if ok then some st.nextCtxId else st.currentCtx })

/-- An `SDLGLContext` object: the hidden window it created, the GL context it
created against that window, and its `is_current` flag. -/
structure SDLGLContextRec where
  window : SDLWindowRec
  context : SDLContextRec
  is_current : Bool
  deriving DecidableEq, Repr

/-- The `SDLGLContext` constructor: create a hidden zero-size window, then a
GL context against it.  Returns the object, the updated SDL state, and the
trace of calls made. -/
def SDLGLContext.construct (st : SDLEnvState) (glOk : Bool) :
    SDLGLContextRec × SDLEnvState × List Ev :=
  let (w, st1) := sdlCreateWindow st none 0 0 true
  let (c, st2) := sdlGLCreateContext st1 w glOk
  ({ window := w, context := c, is_current := false }, st2,
   [Ev.createWindow w.id none 0 0 true, Ev.glCreateContext c.id w.id glOk])

/-- `EmuWindow_SDL2_GL::CreateSharedContext`:
`std::make_unique<SDLGLContext>()` — the returned owning pointer is never
null, whatever happened inside the `SDLGLContext` constructor. -/
def createSharedContext (st : SDLEnvState) (glOk : Bool) :
    SDLGLContextRec × SDLEnvState × List Ev :=
  SDLGLContext.construct st glOk

/-- The `~SDLGLContext` destructor trace: `DoneCurrent()` (an SDL unbind call
only if currently bound), then `SDL_GL_DeleteContext`, then
`SDL_DestroyWindow`. -/
def sdlGLContextDtorTrace (c : SDLGLContextRec) : List Ev :=
  (if c.is_current then [Ev.glMakeCurrent c.window.id none] else []) ++
  [Ev.glDeleteContext c.context.id, Ev.destroyWindow c.window.id]

/-- The `~EmuWindow_SDL2_GL` destructor trace: `core_context.reset()` runs the
shared context's destructor, then `SDL_GL_DeleteContext(window_context)`. -/
def emuWindowDtorTrace (shared : SDLGLContextRec) (windowCtxId : Nat) : List Ev :=
  sdlGLContextDtorTrace shared ++ [Ev.glDeleteContext windowCtxId]

/-! ## EmuWindow_SDL2_GL constructor -/

/-- Environment of one `EmuWindow_SDL2_GL` constructor run: the configuration
values read and the success of each fallible external call. -/
structure CtorEnv where
  renderer_debug : Bool
  fullscreen : Bool
  renderWindowOk : Bool
  windowContextOk : Bool
  sharedGLOk : Bool
  gladOk : Bool
  driver : GLDriver
  build_fullname : String
  scm_branch : String
  scm_desc : String
  deriving DecidableEq, Repr

/-- Modelled from the spec: the default undocked window dimensions
(`Layout::ScreenUndocked::{Width, Height}` live outside this file); only their
positivity matters to the spec. -/
def screenUndockedWidth : Int := 1280

/-- Modelled from the spec: see `screenUndockedWidth`. -/
def screenUndockedHeight : Int := 720

/-- The one-shot `SDL_GL_SetAttribute` calls at the top of the constructor, in
code order (`SDL_GL_CONTEXT_PROFILE_COMPATIBILITY = 2`). -/
def attrConfigCalls : List Ev :=
  [Ev.setAttr "SDL_GL_CONTEXT_MAJOR_VERSION" 4,
   Ev.setAttr "SDL_GL_CONTEXT_MINOR_VERSION" 3,
   Ev.setAttr "SDL_GL_CONTEXT_PROFILE_MASK" 2,
   Ev.setAttr "SDL_GL_DOUBLEBUFFER" 1,
   Ev.setAttr "SDL_GL_RED_SIZE" 8,
   Ev.setAttr "SDL_GL_GREEN_SIZE" 8,
   Ev.setAttr "SDL_GL_BLUE_SIZE" 8,
   Ev.setAttr "SDL_GL_ALPHA_SIZE" 0,
   Ev.setAttr "SDL_GL_SHARE_WITH_CURRENT_CONTEXT" 1]

/-- The four members the constructor fills in on the success path. -/
structure EmuWindowRec where
  render_window : SDLWindowRec
  dummy_window : SDLWindowRec
  window_context : SDLContextRec
  core_context : SDLGLContextRec
  deriving DecidableEq, Repr

/-- The `EmuWindow_SDL2_GL` constructor: returns the trace of external calls
in program order and, when no `exit(1)` was reached, the constructed object.
The attribute calls set `SDL_GL_SHARE_WITH_CURRENT_CONTEXT` before anything
else; a trace ending in `exitProcess 1` means the process terminated there.
The code's `if (core_context == nullptr)` check is dead: `core_context` comes
from `std::make_unique`, which never returns null, so a failed
`SDL_GL_CreateContext` inside the shared `SDLGLContext` is not detected. -/
def emuWindowConstruct (env : CtorEnv) : List Ev × Option EmuWindowRec :=
  let st0 : SDLEnvState :=
    { shareWithCurrent := true, currentCtx := none, nextWindowId := 0, nextCtxId := 0 }
  let title := windowTitle env.build_fullname env.scm_branch env.scm_desc
  let tAttrs := attrConfigCalls ++
    (if env.renderer_debug then [Ev.setAttr "SDL_GL_CONTEXT_FLAGS" 1] else []) ++
    [Ev.setSwapInterval 0]
  let (rw, st1) := sdlCreateWindow st0 (some title) screenUndockedWidth
    screenUndockedHeight false
  let t1 := tAttrs ++
    [Ev.createWindow rw.id (some title) screenUndockedWidth screenUndockedHeight false]
  if !env.renderWindowOk then
    (t1 ++ [Ev.logCritical "Failed to create SDL2 window!", Ev.exitProcess 1], none)
  else
    let (dw, st2) := sdlCreateWindow st1 none 0 0 true
    let t2 := t1 ++ [Ev.createWindow dw.id none 0 0 true] ++
      (if env.fullscreen then [Ev.fullscreenCall] else [])
    let (wc, st3) := sdlGLCreateContext st2 rw env.windowContextOk
    let (cc, _st4, tcc) := createSharedContext st3 env.sharedGLOk
    let t3 := t2 ++ [Ev.glCreateContext wc.id rw.id env.windowContextOk] ++ tcc
    if !env.windowContextOk then
      (t3 ++ [Ev.logCritical "Failed to create SDL2 GL context", Ev.exitProcess 1], none)
    else
      let t4 := t3 ++ [Ev.gladLoad env.gladOk]
      if !env.gladOk then
        (t4 ++ [Ev.logCritical "Failed to initialize GL functions!", Ev.exitProcess 1], none)
      else
        let t5 := t4 ++ (supportsRequiredGLExtensions env.driver).1
        if !(supportsRequiredGLExtensions env.driver).2 then
          (t5 ++ [Ev.logCritical
              "GPU does not support all required OpenGL extensions! Exiting...",
            Ev.exitProcess 1], none)
        else
          (t5 ++ [Ev.onResize, Ev.onMinimalClientAreaChange, Ev.pumpEvents,
            Ev.logInfo "yuzu Version", Ev.logSettings],
           some { render_window := rw, dummy_window := dw,
                  window_context := wc, core_context := cc })

/-- A driver state with all nine required extensions supported. -/
def allExtensionsDriver : GLDriver :=
  ⟨true, true, true, true, true, true, true, true, true⟩

/-- The environment exhibiting the dead null-check: every external call
succeeds except the `SDL_GL_CreateContext` inside the shared `SDLGLContext`. -/
def sharedFailureEnv : CtorEnv :=
  { renderer_debug := false, fullscreen := false, renderWindowOk := true,
    windowContextOk := true, sharedGLOk := false, gladOk := true,
    driver := allExtensionsDriver, build_fullname := "1.0",
    scm_branch := "master", scm_desc := "abcd123" }

/-- `true` on `SDL_GL_DeleteContext` events. -/
def Ev.isDeleteContext : Ev → Bool
  | .glDeleteContext _ => true
  | _ => false

/-- `true` on `SDL_DestroyWindow` events. -/
def Ev.isDestroyWindow : Ev → Bool
  | .destroyWindow _ => true
  | _ => false

/-- `true` on `SDL_GL_CreateContext` events anchored to window `wid`. -/
def Ev.isCreateContextOn (wid : Nat) : Ev → Bool
  | .glCreateContext _ w _ => w == wid
  | _ => false

/-! ## EmuWindow_SDL2_GL::Present

```cpp
void Present() {
    SDL_GL_MakeCurrent(render_window, window_context);
    SDL_GL_SetSwapInterval(Settings::values.use_vsync ? 1 : 0);
    while (IsOpen()) {
        system.Renderer().TryPresent(100);
        SDL_GL_SwapWindow(render_window);
    }
    SDL_GL_MakeCurrent(render_window, nullptr);
}
```
`IsOpen()` is window-system state mutated elsewhere; the run is parameterised
by the number of iterations for which it reads `true` — equivalently, by the
list `results` of the `TryPresent` return values observed, one per iteration
(the code discards each).  `render_window` has id 0 and `window_context`
id 0 (their ids play no role here). -/

/-- The body of Present's while-loop, once per iteration in which `IsOpen()`
read `true`: one bounded-timeout `TryPresent(100)` then one buffer swap. -/
def presentLoopTrace : List Bool → List Ev
  | [] => []
  | r :: rs => Ev.tryPresent 100 r :: Ev.swapWindow 0 :: presentLoopTrace rs

/-- The full trace of one `Present()` call: bind the primary context, apply
the vsync policy read at entry, run the loop, release the binding. -/
def presentTrace (use_vsync : Bool) (results : List Bool) : List Ev :=
  Ev.glMakeCurrent 0 (some 0) ::
    Ev.setSwapInterval (if use_vsync then 1 else 0) ::
    (presentLoopTrace results ++ [Ev.glMakeCurrent 0 none])

end Yuzu

namespace Yuzu

/-- **C1.** For every sequence of `MakeCurrent`/`DoneCurrent` calls on a single
`SDLGLContext` from a single thread (with the underlying SDL bind succeeding),
the binding state evolves exactly as the two-state machine current/not-current:
`MakeCurrent` when already current is a no-op (state unchanged, no SDL call),
`DoneCurrent` when not current is a no-op, and neither operation ever signals
an error (no critical log, no exit in the trace). -/
theorem sdlglcontext_two_state_machine (ops : List GLOp) (s : Bool)
    (h : allBindsSucceed ops = true) :
    (runOps ops s).1 = ops.foldl specStep s ∧
    makeCurrent true true = (true, []) ∧
    doneCurrent false = (false, []) ∧
    cleanTrace (runOps ops s).2 = true := by
  refine ⟨?_, rfl, rfl, ?_⟩
  · induction ops generalizing s with
    | nil => rfl
    | cons op ops ih =>
      cases op with
      | make bindOk =>
        rw [allBindsSucceed, Bool.and_eq_true] at h
        obtain ⟨hb, h'⟩ := h
        subst hb
        cases s <;> simp [runOps, makeCurrent, List.foldl, specStep, ih _ h']
      | done =>
        rw [allBindsSucceed] at h
        cases s <;> simp [runOps, doneCurrent, List.foldl, specStep, ih _ h]
  · induction ops generalizing s with
    | nil => rfl
    | cons op ops ih =>
      cases op with
      | make bindOk =>
        rw [allBindsSucceed, Bool.and_eq_true] at h
        cases s with
        | false =>
          simpa [runOps, makeCurrent, cleanTrace, List.all_append, noErrorEv,
            Ev.isCritical, Ev.isExit] using ih bindOk h.2
        | true =>
          simpa [runOps, makeCurrent, cleanTrace, List.all_append, noErrorEv,
            Ev.isCritical, Ev.isExit] using ih true h.2
      | done =>
        rw [allBindsSucceed] at h
        cases s with
        | false =>
          simpa [runOps, doneCurrent, cleanTrace, List.all_append, noErrorEv,
            Ev.isCritical, Ev.isExit] using ih false h
        | true =>
          simpa [runOps, doneCurrent, cleanTrace, List.all_append, noErrorEv,
            Ev.isCritical, Ev.isExit] using ih false h

/-- Witness for C1 at a concrete call sequence. -/
theorem sdlglcontext_two_state_machine_witness :
    allBindsSucceed [GLOp.make true, GLOp.make true, GLOp.done, GLOp.done] = true ∧
    (runOps [GLOp.make true, GLOp.make true, GLOp.done, GLOp.done] false).1 =
      [GLOp.make true, GLOp.make true, GLOp.done, GLOp.done].foldl specStep false :=
  ⟨by decide,
   (sdlglcontext_two_state_machine
      [GLOp.make true, GLOp.make true, GLOp.done, GLOp.done] false (by decide)).1⟩

/-- **C9.** If the underlying `SDL_GL_MakeCurrent` fails inside `MakeCurrent`
(from the not-current state), the binding state remains not-current, no error
is reported (no critical log, no exit), and a subsequent `MakeCurrent` retries
the bind (it performs the SDL call again rather than no-opping). -/
theorem makecurrent_failure_retries :
    makeCurrent false false = (false, [Ev.glMakeCurrent 0 (some 0)]) ∧
    (makeCurrent false false).2.all (fun e => !(e.isCritical || e.isExit)) = true ∧
    makeCurrent true false = (true, [Ev.glMakeCurrent 0 (some 0)]) := by
  decide

/-- `unsupported_ext` collects exactly the names of the missing required
extensions, in list order. -/
theorem unsupported_ext_eq_specMissing (d : GLDriver) :
    unsupported_ext d = specMissing d := by
  rcases d with ⟨b1, b2, b3, b4, b5, b6, b7, b8, b9⟩
  cases b1 <;> cases b2 <;> cases b3 <;> cases b4 <;> cases b5 <;> cases b6 <;>
    cases b7 <;> cases b8 <;> cases b9 <;> rfl

/-- **C2.** `SupportsRequiredGLExtensions` evaluates all 9 required extensions:
for every driver state it emits exactly K critical diagnostics — one per
missing extension, naming it exactly — where K is the number of missing
extensions, and returns `true` if and only if K = 0. -/
theorem supports_required_extensions_correct (d : GLDriver) :
    (supportsRequiredGLExtensions d).1 =
      (specMissing d).map (fun n => Ev.logCritical ("Unsupported GL extension: " ++ n)) ∧
    (supportsRequiredGLExtensions d).1.length = missingCount d ∧
    ((supportsRequiredGLExtensions d).2 = true ↔ missingCount d = 0) := by
  have h := unsupported_ext_eq_specMissing d
  refine ⟨?_, ?_, ?_⟩
  · simp [supportsRequiredGLExtensions, h]
  · simp [supportsRequiredGLExtensions, h, missingCount]
  · simp [supportsRequiredGLExtensions, h, missingCount, List.isEmpty_iff,
      List.length_eq_zero]

/-- Per-iteration shape and event counts of Present's loop body. -/
theorem presentLoopTrace_shape (rs : List Bool) :
    presentLoopTrace rs =
      (rs.map (fun r => [Ev.tryPresent 100 r, Ev.swapWindow 0])).flatten ∧
    (presentLoopTrace rs).countP Ev.isTryPresent = rs.length ∧
    (presentLoopTrace rs).countP Ev.isSwapWindow = rs.length ∧
    (presentLoopTrace rs).countP Ev.isSetSwapInterval = 0 := by
  induction rs with
  | nil => exact ⟨rfl, rfl, rfl, rfl⟩
  | cons r rs ih =>
    obtain ⟨h1, h2, h3, h4⟩ := ih
    refine ⟨?_, ?_, ?_, ?_⟩
    · simp [presentLoopTrace, h1]
    · simp [presentLoopTrace, List.countP_cons, Ev.isTryPresent, Ev.isSwapWindow, h2]
    · simp [presentLoopTrace, List.countP_cons, Ev.isTryPresent, Ev.isSwapWindow, h3]
    · simp [presentLoopTrace, List.countP_cons, Ev.isSetSwapInterval, h4]

/-- **C3.** `Present` applies the vertical-sync policy exactly once at entry
(one `SetSwapInterval` event, placed right after the context bind and before
the loop); each loop iteration performs exactly one bounded-timeout
`TryPresent(100)` followed by exactly one buffer swap, the swap happening
regardless of the `TryPresent` result; and after the window-open flag becomes
false the final event releases the presenting thread's context binding. -/
theorem present_applies_policy_once_then_swaps (v : Bool) (rs : List Bool) :
    (presentTrace v rs).countP Ev.isSetSwapInterval = 1 ∧
    (presentTrace v rs)[1]? = some (Ev.setSwapInterval (if v then 1 else 0)) ∧
    presentLoopTrace rs =
      (rs.map (fun r => [Ev.tryPresent 100 r, Ev.swapWindow 0])).flatten ∧
    (presentTrace v rs).countP Ev.isTryPresent = rs.length ∧
    (presentTrace v rs).countP Ev.isSwapWindow = rs.length ∧
    (presentTrace v rs).getLast? = some (Ev.glMakeCurrent 0 none) := by
  obtain ⟨h1, h2, h3, h4⟩ := presentLoopTrace_shape rs
  refine ⟨?_, by simp [presentTrace], h1, ?_, ?_, ?_⟩
  · simp [presentTrace, List.countP_cons, List.countP_append,
      Ev.isSetSwapInterval, h4]
  · simp [presentTrace, List.countP_cons, List.countP_append,
      Ev.isTryPresent, h2]
  · simp [presentTrace, List.countP_cons, List.countP_append,
      Ev.isSwapWindow, h3]
  · have : presentTrace v rs =
        (Ev.glMakeCurrent 0 (some 0) ::
          Ev.setSwapInterval (if v then 1 else 0) :: presentLoopTrace rs) ++
          [Ev.glMakeCurrent 0 none] := by
      simp [presentTrace]
    rw [this, List.getLast?_concat]

/-- **C8.** The visible window's title is composed from the build-identity
fields as `"<product> <version> | <branch>-<description>"` with product
`yuzu`; in particular for version `1.0`, branch `master`, description
`abcd123` it equals exactly `"yuzu 1.0 | master-abcd123"`. -/
theorem window_title_format (v b d : String) :
    windowTitle v b d = "yuzu" ++ " " ++ v ++ " | " ++ b ++ "-" ++ d ∧
    windowTitle "1.0" "master" "abcd123" = "yuzu 1.0 | master-abcd123" := by
  constructor
  · simp [windowTitle]
  · rfl

/-- **C7.** `~SDLGLContext` performs, in order: a `DoneCurrent` call (an SDL
unbind exactly when bound), then release of the GL context, then destruction
of the hidden window the context was anchored to (the window destruction
coming last). -/
theorem sdlglcontext_dtor_order (c : SDLGLContextRec) :
    (c.is_current = true →
      sdlGLContextDtorTrace c =
        [Ev.glMakeCurrent c.window.id none, Ev.glDeleteContext c.context.id,
         Ev.destroyWindow c.window.id]) ∧
    (c.is_current = false →
      sdlGLContextDtorTrace c =
        [Ev.glDeleteContext c.context.id, Ev.destroyWindow c.window.id]) ∧
    (sdlGLContextDtorTrace c).getLast? = some (Ev.destroyWindow c.window.id) := by
  rcases c with ⟨w, ctx, cur⟩
  cases cur <;> simp [sdlGLContextDtorTrace]

/-- Witness for C7 at a concrete bound context. -/
theorem sdlglcontext_dtor_order_witness :
    sdlGLContextDtorTrace ⟨⟨2, none, 0, 0, true⟩, ⟨1, 2, none, true⟩, true⟩ =
      [Ev.glMakeCurrent 2 none, Ev.glDeleteContext 1, Ev.destroyWindow 2] :=
  (sdlglcontext_dtor_order ⟨⟨2, none, 0, 0, true⟩, ⟨1, 2, none, true⟩, true⟩).1 rfl

/-- **C6.** `~EmuWindow_SDL2_GL` releases the shared context handle strictly
before it destroys the primary context: the shared context's GL-context
deletion occurs at an earlier trace position than the primary context's
deletion, which is the final action. -/
theorem emu_dtor_shared_before_primary (shared : SDLGLContextRec) (wcId : Nat) :
    ∃ i j : Nat, i < j ∧
      (emuWindowDtorTrace shared wcId)[i]? = some (Ev.glDeleteContext shared.context.id) ∧
      (emuWindowDtorTrace shared wcId)[j]? = some (Ev.glDeleteContext wcId) ∧
      j + 1 = (emuWindowDtorTrace shared wcId).length := by
  rcases shared with ⟨w, ctx, cur⟩
  cases cur with
  | false =>
    refine ⟨0, 2, by omega, ?_, ?_, ?_⟩ <;>
      simp [emuWindowDtorTrace, sdlGLContextDtorTrace]
  | true =>
    refine ⟨1, 3, by omega, ?_, ?_, ?_⟩ <;>
      simp [emuWindowDtorTrace, sdlGLContextDtorTrace]

/-- **C4.** Every context returned by `CreateSharedContext` is anchored to the
hidden zero-size auxiliary window created for it — never to the visible
window (a non-hidden window, necessarily with an older id) — and is created
with sharing enabled against whatever context is current on the calling
thread at creation time (the `SDL_GL_SHARE_WITH_CURRENT_CONTEXT` attribute
having been set at the head of the constructor's configuration calls). -/
theorem create_shared_context_anchor_and_sharing (st : SDLEnvState) (glOk : Bool)
    (vw : SDLWindowRec) (env : CtorEnv)
    (hv : vw.hidden = false) (hfresh : vw.id < st.nextWindowId) :
    (createSharedContext st glOk).1.window.hidden = true ∧
    (createSharedContext st glOk).1.window.width = 0 ∧
    (createSharedContext st glOk).1.window.height = 0 ∧
    (createSharedContext st glOk).1.context.anchorWindowId =
      (createSharedContext st glOk).1.window.id ∧
    (createSharedContext st glOk).1.window ≠ vw ∧
    (createSharedContext st glOk).1.context.anchorWindowId ≠ vw.id ∧
    (st.shareWithCurrent = true →
      (createSharedContext st glOk).1.context.sharedWith = st.currentCtx) ∧
    Ev.setAttr "SDL_GL_SHARE_WITH_CURRENT_CONTEXT" 1 ∈ attrConfigCalls ∧
    (∃ rest, (emuWindowConstruct env).1 = attrConfigCalls ++ rest) := by
  refine ⟨rfl, rfl, rfl, rfl, ?_, ?_, ?_, by decide, ?_⟩
  · intro hEq
    have : (createSharedContext st glOk).1.window.hidden = vw.hidden := by rw [hEq]
    rw [hv] at this
    simp [createSharedContext, SDLGLContext.construct, sdlCreateWindow] at this
  · show st.nextWindowId ≠ vw.id
    omega
  · intro hs
    simp [createSharedContext, SDLGLContext.construct, sdlCreateWindow,
      sdlGLCreateContext, hs]
  · simp only [emuWindowConstruct]
    split_ifs <;> exact ⟨_, rfl⟩

/-- Witness for C4 at a concrete SDL state and visible window. -/
theorem create_shared_context_anchor_and_sharing_witness :
    (createSharedContext ⟨true, some 5, 3, 7⟩ true).1.window.hidden = true ∧
    (createSharedContext ⟨true, some 5, 3, 7⟩ true).1.window ≠
      ⟨0, some "t", 1280, 720, false⟩ ∧
    (createSharedContext ⟨true, some 5, 3, 7⟩ true).1.context.sharedWith = some 5 := by
  have h := create_shared_context_anchor_and_sharing ⟨true, some 5, 3, 7⟩ true
    ⟨0, some "t", 1280, 720, false⟩ sharedFailureEnv rfl (by decide)
  exact ⟨h.1, h.2.2.2.2.1, h.2.2.2.2.2.2.1 rfl⟩

/-- **C5 (failing input).** With every external call succeeding except the
`SDL_GL_CreateContext` inside the shared `SDLGLContext`, the constructor does
not exit and logs nothing critical — it completes, holding a shared context
whose underlying GL context is null — because `core_context` comes from
`std::make_unique` and the `if (core_context == nullptr)` check can never
fire.  The claim's "either context creation failure is fatal" is the code's
own evident intent (it logs "Failed to create shared SDL2 GL context") but is
not what the code does. -/
theorem shared_context_failure_not_fatal :
    (emuWindowConstruct sharedFailureEnv).1.countP Ev.isExit = 0 ∧
    (emuWindowConstruct sharedFailureEnv).1.countP Ev.isCritical = 0 ∧
    ((emuWindowConstruct sharedFailureEnv).2.map
      (fun w => w.core_context.context.valid)) = some false := by
  decide

/-- The extension-check diagnostics contain no context-creation call. -/
theorem ext_diag_no_create_context (d : GLDriver) (wid : Nat) :
    (supportsRequiredGLExtensions d).1.countP (Ev.isCreateContextOn wid) = 0 := by
  show ((unsupported_ext d).map _).countP _ = 0
  induction unsupported_ext d with
  | nil => rfl
  | cons a l ih => simp [List.countP_cons, Ev.isCreateContextOn, ih]

/-- **C10.** For every constructor run that completes, the destructor's trace
releases exactly the shared-context handle (its unbind-if-bound, GL-context
deletion and hidden-window destruction) and the primary GL context: the only
contexts deleted are the shared and then the primary one, the only window
destroyed is the shared context's own hidden window — never the visible
render window or the auxiliary `dummy_window` — and the whole constructor
trace anchors no context to `dummy_window` at all. -/
theorem emu_dtor_releases_only_contexts (env : CtorEnv) (w : EmuWindowRec)
    (cur : Bool) (h : (emuWindowConstruct env).2 = some w) :
    (emuWindowDtorTrace { w.core_context with is_current := cur }
        w.window_context.id).filter Ev.isDeleteContext =
      [Ev.glDeleteContext w.core_context.context.id,
       Ev.glDeleteContext w.window_context.id] ∧
    (emuWindowDtorTrace { w.core_context with is_current := cur }
        w.window_context.id).filter Ev.isDestroyWindow =
      [Ev.destroyWindow w.core_context.window.id] ∧
    w.core_context.window.id ≠ w.render_window.id ∧
    w.core_context.window.id ≠ w.dummy_window.id ∧
    (emuWindowConstruct env).1.countP
      (Ev.isCreateContextOn w.dummy_window.id) = 0 := by
  obtain ⟨rd, fs, rwOk, wcOk, sOk, gOk, drv, bf, bb, bd⟩ := env
  cases rwOk with
  | false => simp [emuWindowConstruct] at h
  | true =>
    cases wcOk with
    | false => simp [emuWindowConstruct] at h
    | true =>
      cases gOk with
      | false => simp [emuWindowConstruct] at h
      | true =>
        cases hext : (supportsRequiredGLExtensions drv).2 with
        | false => simp [emuWindowConstruct, hext] at h
        | true =>
          rw [emuWindowConstruct] at h
          simp only [hext, Bool.not_true, Bool.false_eq_true, if_false,
            Bool.not_false, if_true, Option.some.injEq] at h
          subst h
          refine ⟨?_, ?_, ?_, ?_, ?_⟩
          · cases cur <;>
              simp [emuWindowDtorTrace, sdlGLContextDtorTrace,
                createSharedContext, SDLGLContext.construct, sdlCreateWindow,
                sdlGLCreateContext, Ev.isDeleteContext]
          · cases cur <;>
              simp [emuWindowDtorTrace, sdlGLContextDtorTrace,
                createSharedContext, SDLGLContext.construct, sdlCreateWindow,
                sdlGLCreateContext, Ev.isDestroyWindow]
          · simp [createSharedContext, SDLGLContext.construct, sdlCreateWindow,
              sdlGLCreateContext]
          · simp [createSharedContext, SDLGLContext.construct, sdlCreateWindow,
              sdlGLCreateContext]
          · rw [emuWindowConstruct]
            simp only [hext, Bool.not_true, Bool.false_eq_true, if_false,
              Bool.not_false, if_true]
            cases rd <;> cases fs <;>
              simp [List.countP_append, List.countP_cons, attrConfigCalls,
                createSharedContext, SDLGLContext.construct, sdlCreateWindow,
                sdlGLCreateContext, Ev.isCreateContextOn,
                ext_diag_no_create_context]

/-- Witness for C10 at a completing constructor run. -/
theorem emu_dtor_releases_only_contexts_witness :
    (emuWindowDtorTrace
        { window := ⟨2, none, 0, 0, true⟩, context := ⟨1, 2, some 0, false⟩,
          is_current := false } 0).filter Ev.isDeleteContext =
      [Ev.glDeleteContext 1, Ev.glDeleteContext 0] := by
  have h : (emuWindowConstruct sharedFailureEnv).2 =
      some { render_window := ⟨0, some "yuzu 1.0 | master-abcd123", 1280, 720, false⟩,
             dummy_window := ⟨1, none, 0, 0, true⟩,
             window_context := ⟨0, 0, none, true⟩,
             core_context :=
               { window := ⟨2, none, 0, 0, true⟩, context := ⟨1, 2, some 0, false⟩,
                 is_current := false } } := by
    decide
  exact (emu_dtor_releases_only_contexts sharedFailureEnv _ false h).1

end Yuzu
